import Mathlib

/-!
Shallow embedding of `src/ai_analysis.py` (`SolarActivityPredictor` and
`AIReportGenerator`).  Floating-point values are modelled as rationals,
timestamps as integers counting hours (the data cadence is one hour, so
`pd.date_range(start, periods, freq='h')` becomes consecutive integers).
The learned LSTM network itself is opaque numerics; everywhere it is
needed it appears as an explicit function parameter `net`, exactly as the
spec treats the Forecast Model ("any sequence regression model satisfying
the stated input/output contract is conformant").
-/

namespace SBTA

/-- `self.sequence_length = 24` (line 13). -/
def sequence_length : ℕ := 24

/-- `self.forecast_horizon = 12` (line 14). -/
def forecast_horizon : ℕ := 12

/-- Per-feature bounds stored by the fitted scaler
(sklearn `MinMaxScaler.data_min_` / `data_max_`). -/
structure Bounds where
  lo : ℚ
  hi : ℚ
  deriving DecidableEq, Repr

/-- Minimum of a feature column (value on `[]` is irrelevant: sklearn
raises on an empty matrix and every call site guards emptiness). -/
def listMin : List ℚ → ℚ
  | [] => 0
  | x :: xs => xs.foldl min x

/-- Maximum of a feature column, same convention as `listMin`. -/
def listMax : List ℚ → ℚ
  | [] => 0
  | x :: xs => xs.foldl max x

/-- sklearn `MinMaxScaler.fit` restricted to one feature column: store the
column minimum and maximum. -/
def fitColumn (xs : List ℚ) : Bounds := ⟨listMin xs, listMax xs⟩

/-- sklearn `_handle_zeros_in_scale`: a zero feature range (constant
feature) is replaced by 1, so a constant column scales to 0 instead of
dividing by zero. -/
def data_range (b : Bounds) : ℚ := if b.hi - b.lo = 0 then 1 else b.hi - b.lo

/-- sklearn `MinMaxScaler.transform` on one component, default
`feature_range = (0, 1)`: `(x - data_min_) / handled_range`. -/
def transformVal (b : Bounds) (x : ℚ) : ℚ := (x - b.lo) / data_range b

/-- sklearn `MinMaxScaler.inverse_transform` on one component. -/
def inverseVal (b : Bounds) (y : ℚ) : ℚ := y * data_range b + b.lo

/-- Fit both tracked feature columns, `self.features = ['intensity', 'kp_index']`
(line 18): a row is the pair (intensity, kp_index). -/
def fitRows (rows : List (ℚ × ℚ)) : Bounds × Bounds :=
  (fitColumn (rows.map Prod.fst), fitColumn (rows.map Prod.snd))

/-- Transform one two-feature row with stored bounds. -/
def transformRow (b : Bounds × Bounds) (r : ℚ × ℚ) : ℚ × ℚ :=
  (transformVal b.1 r.1, transformVal b.2 r.2)

/-- The sliding-window loop of `prepare_sequences` (lines 43-50):
`for i in range(len(scaled_data) - self.sequence_length - self.forecast_horizon)`;
`X.append(scaled_data[i:i+L])`, `y.append(scaled_data[i+L:i+L+H, 0])`.
Python `range` of a negative int is empty, which matches truncated ℕ
subtraction. -/
def slidingPairs (scaled : List (ℚ × ℚ)) :
    List (List (ℚ × ℚ)) × List (List ℚ) :=
  ((List.range (scaled.length - sequence_length - forecast_horizon)).map
      (fun i => (scaled.drop i).take sequence_length),
   (List.range (scaled.length - sequence_length - forecast_horizon)).map
      (fun i => ((scaled.drop (i + sequence_length)).take forecast_horizon).map Prod.fst))

/-- The mutable attributes of `SolarActivityPredictor` that the pipeline
reads: `self.model is None`, `self._is_fitted`, and the scaler's stored
bounds (only meaningful once `fitted = true`, as in sklearn where the
attributes do not exist before the first fit). -/
structure PredictorState where
  modelBuilt : Bool
  fitted : Bool
  bounds : Bounds × Bounds
  deriving DecidableEq, Repr

/-- `__init__` (lines 12-19): no model, scaler not fitted. -/
def initState : PredictorState := ⟨false, false, ⟨⟨0, 0⟩, ⟨0, 0⟩⟩⟩

/-- `prepare_sequences` (lines 34-53): fit the scaler on the first call
only, thereafter reuse the stored bounds; then build sliding-window
pairs from the scaled matrix. -/
def prepare_sequences (st : PredictorState) (rows : List (ℚ × ℚ)) :
    PredictorState × (List (List (ℚ × ℚ)) × List (List ℚ)) :=
  if st.fitted then (st, slidingPairs (rows.map (transformRow st.bounds)))
  else
    let b := fitRows rows
    ({ st with fitted := true, bounds := b },
     slidingPairs (rows.map (transformRow b)))

/-- `split = int(len(X) * 0.8)` (line 66): Python `int()` truncates, and
for the 0.8 multiplier the float product truncates to `⌊4·N/5⌋`;
`X_train, X_val = X[:split], X[split:]` (lines 67-68). -/
def trainValSplit {α : Type} (X : List α) : List α × List α :=
  (X.take (X.length * 4 / 5), X.drop (X.length * 4 / 5))

/-- `model.compile(optimizer='adam', loss='mse')` (line 31). -/
def loss_metric : String := "mse"

/-- `train` (lines 55-81) as a state transition.  The returned `Except`
records whether the call raised.  Failure sites modelled from the
libraries the code calls into: sklearn raises on an empty input matrix
before any flag is set; keras `model.fit` (and the subsequent
`history.history['loss'][-1]` lookup, line 79) fails when the training
subset `X[:split]` is empty.  Crucially, `self._is_fitted` (line 39) and
`self.model` (line 62) are assigned before the fit runs, so those
mutations survive a failing fit. -/
def train (st : PredictorState) (rows : List (ℚ × ℚ)) :
    PredictorState × Except String Unit :=
  if rows.isEmpty then (st, Except.error "scaler: empty input")
  else
    let p := prepare_sequences st rows
    let st2 : PredictorState := { p.1 with modelBuilt := true }
    if (trainValSplit p.2.1).1.isEmpty then
      (st2, Except.error "model fit: empty training data")
    else (st2, Except.ok ())

/-- `np.clip(x, 0, 1)`. -/
def clip01 (x : ℚ) : ℚ := min (max x 0) 1

/-- `_calculate_confidence` (lines 126-130):
`1.0 - np.abs(np.diff(predictions, prepend=predictions[0])) / 2`, clipped
to [0, 1].  `np.diff` with the first value prepended yields, at index i,
`predictions[i] - predictions[i-1]` (0 at index 0). -/
def calculate_confidence : List ℚ → List ℚ
  | [] => []
  | p :: rest =>
    List.zipWith (fun cur prev => clip01 (1 - |cur - prev| / 2))
      (p :: rest) (p :: (p :: rest).dropLast)

/-- Zip of the three equal-length columns of the forecast DataFrame
(timestamp, predicted_intensity, confidence), lines 114-118. -/
def zip3 {α β γ : Type} (a : List α) (b : List β) (c : List γ) :
    List (α × β × γ) :=
  List.zipWith (fun x p => (x, p.1, p.2)) a (b.zip c)

/-- `predict_future` (lines 83-124).  An observation is
(timestamp, intensity, kp_index); `net` is the opaque trained network
(`self.model.predict` on the scaled window).  Step by step:
the two `ValueError` guards; `data.tail(L)`; `scaler.transform`;
keras rejects a window whose shape is not `(L, 2)`
(`Input(shape=(24, 2))`, line 24); `pred_sequence = zeros((H, 2))` with
column 0 set to the prediction (lines 101-102); inverse transform and
keep column 0 (line 105); `pd.date_range(start=last, periods=H+1,
freq='h')[1:]` (lines 108-112); DataFrame construction needs the three
column lengths equal, and `forecast_times[:len]` can only shorten.
Any failure inside the `try` is re-raised as `ValueError` (line 124). -/
def predict_future (st : PredictorState) (data : List (ℤ × ℚ × ℚ))
    (net : List (ℚ × ℚ) → List ℚ) : Except String (List (ℤ × ℚ × ℚ)) :=
  if st.modelBuilt = false then
    Except.error "Model must be trained before making predictions"
  else if st.fitted = false then
    Except.error "Model must be trained before making predictions"
  else
    match data.getLast? with
    | none => Except.error "Error making prediction: empty input"
    | some lastObs =>
      let latest := data.drop (data.length - sequence_length)
      let scaled := latest.map (fun o => transformRow st.bounds (o.2.1, o.2.2))
      if scaled.length ≠ sequence_length then
        Except.error "Error making prediction: input shape mismatch"
      else
        let prediction := net scaled
        let pred_sequence := prediction.map (fun v => ((v, 0) : ℚ × ℚ))
        let prediction_rescaled :=
          (pred_sequence.map
            (fun r => (inverseVal st.bounds.1 r.1, inverseVal st.bounds.2 r.2))).map
            Prod.fst
        if forecast_horizon < prediction_rescaled.length then
          Except.error "Error making prediction: column length mismatch"
        else
          let forecast_times :=
            (List.range forecast_horizon).map (fun (i : ℕ) => lastObs.1 + (i : ℤ) + 1)
          Except.ok (zip3 (forecast_times.take prediction_rescaled.length)
            prediction_rescaled (calculate_confidence prediction_rescaled))

/-- pandas `Series.tail(24)`: the last `min(24, len)` entries. -/
def tail24 (xs : List ℚ) : List ℚ := xs.drop (xs.length - 24)

/-- pandas `Series.mean()`.  For an empty series pandas yields NaN and
every NaN comparison below is False; ℚ gives `0/0 = 0`, and `|0| > 0.1`
is likewise false, so the gates below behave identically. -/
def listMean (xs : List ℚ) : ℚ := xs.sum / (xs.length : ℚ)

/-- pandas `Series.diff()` with the leading NaN dropped (as `.mean()`
skips it): consecutive differences. -/
def diffs (xs : List ℚ) : List ℚ := List.zipWith (fun a b => a - b) xs.tail xs

/-- Centered sum of squares `Σ (x - mean)²` of a column. -/
def Sxx (xs : List ℚ) : ℚ := ((xs.map (fun x => (x - listMean xs) ^ 2)).sum)

/-- pandas `Series.std()` squared, i.e. the sample variance (ddof = 1). -/
def sampleVar (xs : List ℚ) : ℚ := Sxx xs / ((xs.length : ℚ) - 1)

/-- The gate `data['intensity'].std() > data['intensity'].mean() * 0.5`
(line 147), encoded without square roots: with n < 2 the std is NaN and
the comparison is False; with a negative mean it always holds
(std ≥ 0 > mean/2); otherwise both sides are nonnegative and the
comparison squares to `var > mean²/4`. -/
def std_gate (xs : List ℚ) : Prop :=
  2 ≤ xs.length ∧ (listMean xs < 0 ∨ (listMean xs) ^ 2 / 4 < sampleVar xs)

instance std_gate_decidable (xs : List ℚ) : Decidable (std_gate xs) :=
  inferInstanceAs (Decidable
    (2 ≤ xs.length ∧ (listMean xs < 0 ∨ (listMean xs) ^ 2 / 4 < sampleVar xs)))

/-- Centered cross sum `Σ (x - mean x)(y - mean y)`; Pearson correlation
is `covSum / sqrt(Sxx · Syy)`, so it has the sign of `covSum`. -/
def covSum (xs ys : List ℚ) : ℚ :=
  ((xs.zip ys).map (fun p => (p.1 - listMean xs) * (p.2 - listMean ys))).sum

/-- The gate `abs(data['intensity'].corr(data['kp_index'])) > 0.7`
(lines 155-156), encoded without square roots: pandas yields NaN (gate
False) when n < 2 or either column has zero variance; otherwise
`|corr| > 0.7 ↔ covSum² > 0.49 · Sxx · Syy`. -/
def corr_gate (xs ys : List ℚ) : Prop :=
  2 ≤ xs.length ∧ 0 < Sxx xs ∧ 0 < Sxx ys
    ∧ (49 : ℚ) / 100 * (Sxx xs * Sxx ys) < covSum xs ys ^ 2

instance corr_gate_decidable (xs ys : List ℚ) : Decidable (corr_gate xs ys) :=
  inferInstanceAs (Decidable
    (2 ≤ xs.length ∧ 0 < Sxx xs ∧ 0 < Sxx ys
      ∧ (49 : ℚ) / 100 * (Sxx xs * Sxx ys) < covSum xs ys ^ 2))

/-- Trend insight text (lines 140-143); `d` is "increasing" or
"decreasing". -/
def trendInsight (d : String) : String :=
  "Solar activity shows a " ++ d ++ " trend over the last 24 hours."

/-- Variability insight text (lines 148-151). -/
def variabilityInsight : String :=
  "High variability detected in solar activity, suggesting potential upcoming events."

/-- Correlation insight text (lines 157-160); `s` is "positive" or
"negative". -/
def correlationInsight (s : String) : String :=
  "Strong " ++ s ++ " correlation between solar intensity and geomagnetic activity."

/-- `generate_insights` (lines 132-162).  The trend statistic is
`data['intensity'].tail(24).diff().mean()`; the variability and
correlation statistics are computed over the whole series (lines
146-147, 155).  `kp = none` models a frame without a 'kp_index' column
(line 154 guard). -/
def generate_insights (intensity : List ℚ) (kp : Option (List ℚ)) : List String :=
  let recent_trend := listMean (diffs (tail24 intensity))
  (if (1 : ℚ) / 10 < |recent_trend| then
      [trendInsight (if 0 < recent_trend then "increasing" else "decreasing")]
    else [])
  ++ (if std_gate intensity then [variabilityInsight] else [])
  ++ (match kp with
      | some ys =>
        if corr_gate intensity ys then
          [correlationInsight (if 0 < covSum intensity ys then "positive" else "negative")]
        else []
      | none => [])

/-- `"=" * 40` (line 186). -/
def equalsLine : String := "========================================"

/-- `"-" * 20` (lines 189 etc.). -/
def dashLine : String := "--------------------"

/-- Fixed recommendation boilerplate (lines 233-235). -/
def recommendationLines : List String :=
  ["• Monitor solar activity closely during predicted peak times",
   "• Prepare for potential impacts during high-activity periods",
   "• Update prediction models with new data regularly"]

/-- The report body for a nonempty forecast (lines 184-236).  The inner
`try` block that formats the peak line and the hourly listing (lines
193-213) is abstracted as `details`; on its failure the code logs and
appends the placeholder `"Error processing forecast details"`
(lines 215-217) and the rest of the report still renders. -/
def report_lines (insights : List String)
    (details : Except String (List String)) : List String :=
  ["AI-Powered Solar Activity Analysis", equalsLine, "",
   "Forecast Summary:", dashLine]
  ++ (match details with
      | Except.ok ls => ls
      | Except.error _ => ["Error processing forecast details"])
  ++ ["", "Key Insights:", dashLine]
  ++ insights.map (fun s => "• " ++ s)
  ++ ["", "Recommendations:", dashLine]
  ++ recommendationLines

/-- `generate_report` (lines 168-243).  `pipeline` is the outcome of the
train-if-needed / predict / insights steps inside the outer `try`
(lines 170-181): on any exception the outer handler returns
`"Error generating report: " + msg` (lines 240-243).  An empty forecast
raises `ValueError("No forecast data generated")` (lines 178-179), which
that same handler turns into its message. -/
def generate_report (pipeline : Except String (List (ℤ × ℚ × ℚ) × List String))
    (details : Except String (List String)) : String :=
  match pipeline with
  | Except.error e => "Error generating report: " ++ e
  | Except.ok (forecast, insights) =>
    if forecast.isEmpty then "Error generating report: No forecast data generated"
    else String.intercalate "\n" (report_lines insights details)

/-- Operations a caller can perform on one predictor instance
(`generate_insights` touches no state and is omitted). -/
inductive PredOp where
  | trainOp (rows : List (ℚ × ℚ))
  | predictOp (data : List (ℤ × ℚ × ℚ))

/-- State effect of one operation: `train` mutates the instance;
`predict_future` only reads it (no assignment anywhere on the predict
path, lines 83-124). -/
def opStep (st : PredictorState) : PredOp → PredictorState
  | PredOp.trainOp rows => (train st rows).1
  | PredOp.predictOp _ => st

/-- A 36-row feature matrix (T = L + H). -/
def ex36 : List (ℚ × ℚ) := (List.range 36).map (fun i => ((i : ℚ), 0))

/-- A 37-row feature matrix (T = L + H + 1). -/
def ex37 : List (ℚ × ℚ) := (List.range 37).map (fun i => ((i : ℚ), 0))

/-- 30 hourly observations (timestamp, intensity, kp_index). -/
def data30 : List (ℤ × ℚ × ℚ) :=
  (List.range 30).map (fun i => ((i : ℤ), (i : ℚ), (i : ℚ)))

/-- The feature rows of `data30`. -/
def rows30 : List (ℚ × ℚ) := data30.map (fun o => (o.2.1, o.2.2))

/-- 24 hourly observations. -/
def data24 : List (ℤ × ℚ × ℚ) :=
  (List.range 24).map (fun i => ((i : ℤ), (i : ℚ), 0))

/-- A network emitting a constant H-vector (the architecture is opaque;
only the output length H = 12 is fixed by `Dense(self.forecast_horizon)`). -/
def netZero : List (ℚ × ℚ) → List ℚ := fun _ => List.replicate 12 0

/-- A trained-looking state used to instantiate generic theorems. -/
def stW : PredictorState := ⟨true, true, ⟨⟨0, 1⟩, ⟨0, 1⟩⟩⟩

/-- A strictly increasing intensity series of 24 points (10.00, 10.01,
..., 10.23) with mean step 1/100, below the 0.1 trend threshold. -/
def xs24 : List ℚ :=
  [1000/100, 1001/100, 1002/100, 1003/100, 1004/100, 1005/100,
   1006/100, 1007/100, 1008/100, 1009/100, 1010/100, 1011/100,
   1012/100, 1013/100, 1014/100, 1015/100, 1016/100, 1017/100,
   1018/100, 1019/100, 1020/100, 1021/100, 1022/100, 1023/100]

/-- A steep ramp: 24 points with step 1. -/
def ramp24 : List ℚ :=
  [0, 1, 2, 3, 4, 5, 6, 7, 8, 9, 10, 11,
   12, 13, 14, 15, 16, 17, 18, 19, 20, 21, 22, 23]

/-- The ramp reversed: perfectly anti-correlated with `ramp24`. -/
def rev24 : List ℚ :=
  [23, 22, 21, 20, 19, 18, 17, 16, 15, 14, 13, 12,
   11, 10, 9, 8, 7, 6, 5, 4, 3, 2, 1, 0]

/-- 30 points: a high-variance head of six points followed by a constant
tail of 24 ones.  The full series has large sample standard deviation
(≈ 30 ≫ 0.5 × mean ≈ 5.4) while the trailing 24 observations are
constant (standard deviation 0). -/
def mix30 : List ℚ :=
  [100, 0, 100, 0, 100, 0,
   1, 1, 1, 1, 1, 1, 1, 1, 1, 1, 1, 1,
   1, 1, 1, 1, 1, 1, 1, 1, 1, 1, 1, 1]

/-- Ten training pairs stand-in. -/
def tenList : List ℚ := (List.range 10).map (fun i => (i : ℚ))

/-- Six training pairs stand-in (0.8 · 6 = 4.8 is not integral). -/
def sixList : List ℚ := (List.range 6).map (fun i => (i : ℚ))

/-! ## Shared facts about the sequence builder -/

theorem slidingPairs_fst_length (scaled : List (ℚ × ℚ)) :
    (slidingPairs scaled).1.length = scaled.length - 36 := by
  simp [slidingPairs, sequence_length, forecast_horizon]; omega

theorem slidingPairs_snd_length (scaled : List (ℚ × ℚ)) :
    (slidingPairs scaled).2.length = scaled.length - 36 := by
  simp [slidingPairs, sequence_length, forecast_horizon]; omega

/-- **C1.** For a scaled feature matrix of T rows, with L = 24 and H = 12,
`prepare_sequences`'s sliding window yields exactly max(0, T−L−H) pairs,
advancing one row per step: pair i's input window holds rows [i, i+L)
over both features, its target holds the intensity (first) component of
rows [i+L, i+L+H); when T < L+H the result is empty (the loop body never
runs, no exception). -/
theorem prepare_sequences_window_spec (scaled : List (ℚ × ℚ)) :
    ((slidingPairs scaled).1.length : ℤ) = max 0 ((scaled.length : ℤ) - 24 - 12)
    ∧ (slidingPairs scaled).2.length = (slidingPairs scaled).1.length
    ∧ (∀ i j, i < (slidingPairs scaled).1.length → j < 24 →
        (slidingPairs scaled).1[i]?.bind (fun w => w[j]?) = scaled[i + j]?)
    ∧ (∀ i j, i < (slidingPairs scaled).2.length → j < 12 →
        (slidingPairs scaled).2[i]?.bind (fun w => w[j]?)
          = scaled[i + 24 + j]?.map Prod.fst)
    ∧ (scaled.length < 36 → (slidingPairs scaled).1 = [] ∧ (slidingPairs scaled).2 = []) := by
  refine ⟨?_, ?_, ?_, ?_, ?_⟩
  · rw [slidingPairs_fst_length]; omega
  · rw [slidingPairs_fst_length, slidingPairs_snd_length]
  · intro i j hi hj
    rw [slidingPairs_fst_length] at hi
    have hir : i < scaled.length - sequence_length - forecast_horizon := by
      simp [sequence_length, forecast_horizon]; omega
    simp only [slidingPairs, List.getElem?_map, List.getElem?_range, hir, if_pos,
      Option.map_some', Option.bind_some, Option.some_bind]
    rw [List.getElem?_take_of_lt (by simpa [sequence_length] using hj),
      List.getElem?_drop]
  · intro i j hi hj
    rw [slidingPairs_snd_length] at hi
    have hir : i < scaled.length - sequence_length - forecast_horizon := by
      simp [sequence_length, forecast_horizon]; omega
    simp only [slidingPairs, List.getElem?_map, List.getElem?_range, hir, if_pos,
      Option.map_some', Option.bind_some, Option.some_bind]
    rw [List.getElem?_take_of_lt (by simpa [forecast_horizon] using hj),
      List.getElem?_drop]
    simp [sequence_length]
  · intro hT
    have h0 : scaled.length - sequence_length - forecast_horizon = 0 := by
      simp [sequence_length, forecast_horizon]; omega
    simp [slidingPairs, h0]

theorem prepare_sequences_window_spec_witness :
    ((slidingPairs ex37).1.length : ℤ) = max 0 ((ex37.length : ℤ) - 24 - 12)
    ∧ (slidingPairs ex37).1[0]?.bind (fun w => w[3]?) = ex37[0 + 3]? :=
  ⟨(prepare_sequences_window_spec ex37).1,
   (prepare_sequences_window_spec ex37).2.2.1 0 3 (by decide) (by decide)⟩

/-- **C2, counterexample.** On a 36-row matrix (T = L + H exactly), the
sequence builder inside `train` produces zero training pairs, not one:
`range(36 - 24 - 12)` is empty. -/
theorem train_pair_count_at_36 :
    (prepare_sequences initState ex36).2.1.length = 0
    ∧ (prepare_sequences initState ex36).2.1.length ≠ 1 := by
  exact ⟨by decide, by decide⟩

/-- **C2, amended.** `train` with T ≤ L+H = 36 observations yields zero
training pairs (the code raises no dedicated `InsufficientDataError`;
with at least one row the failure surfaces from the model-fit step on an
empty training array), and exactly one training pair requires
T = L+H+1 = 37 observations. -/
theorem train_pair_count_spec (rows : List (ℚ × ℚ)) :
    (rows.length ≤ 36 → (prepare_sequences initState rows).2.1.length = 0)
    ∧ (rows.length = 37 → (prepare_sequences initState rows).2.1.length = 1)
    ∧ (1 ≤ rows.length → rows.length ≤ 36 →
        (train initState rows).2 = Except.error "model fit: empty training data") := by
  have hlen : (prepare_sequences initState rows).2.1.length = rows.length - 36 := by
    simp [prepare_sequences, initState, slidingPairs_fst_length]
  refine ⟨fun h => by omega, fun h => by omega, fun h1 h2 => ?_⟩
  have hne : rows ≠ [] := by
    intro h; subst h; simp at h1
  have hempty : (prepare_sequences initState rows).2.1 = [] := by
    have : (prepare_sequences initState rows).2.1.length = 0 := by omega
    exact List.length_eq_zero.mp this
  simp [train, hne, hempty, trainValSplit]

theorem train_pair_count_spec_witness :
    (prepare_sequences initState ex36).2.1.length = 0
    ∧ (prepare_sequences initState ex37).2.1.length = 1
    ∧ (train initState ex36).2 = Except.error "model fit: empty training data" :=
  ⟨(train_pair_count_spec ex36).1 (by decide),
   (train_pair_count_spec ex37).2.1 (by decide),
   (train_pair_count_spec ex36).2.2 (by decide) (by decide)⟩

/-! ## Confidence estimator -/

theorem clip01_nonneg (x : ℚ) : 0 ≤ clip01 x :=
  le_min (le_max_right x 0) zero_le_one

theorem clip01_le_one (x : ℚ) : clip01 x ≤ 1 := min_le_right _ _

theorem exists_of_mem_zipWith {α β γ : Type} {f : α → β → γ} :
    ∀ {l1 : List α} {l2 : List β} {c : γ},
      c ∈ List.zipWith f l1 l2 → ∃ a b, c = f a b := by
  intro l1
  induction l1 with
  | nil => intro l2 c h; simp at h
  | cons a t ih =>
    intro l2 c h
    cases l2 with
    | nil => simp at h
    | cons b t2 =>
      rcases List.mem_cons.mp h with h1 | h2
      · exact ⟨a, b, h1⟩
      · exact ih h2

theorem calculate_confidence_length (ps : List ℚ) :
    (calculate_confidence ps).length = ps.length := by
  cases ps with
  | nil => rfl
  | cons p rest =>
    simp [calculate_confidence, List.length_zipWith]

theorem calculate_confidence_replicate (n : ℕ) (x : ℚ) :
    calculate_confidence (List.replicate n x) = List.replicate n 1 := by
  cases n with
  | zero => rfl
  | succ m =>
    have hrep : List.replicate (m + 1) x = x :: List.replicate m x :=
      List.replicate_succ x m
    have hdrop : (x :: List.replicate m x).dropLast = List.replicate m x := by
      rw [← hrep, List.dropLast_replicate]
      simp
    rw [hrep]
    show List.zipWith (fun cur prev => clip01 (1 - |cur - prev| / 2))
        (x :: List.replicate m x) (x :: (x :: List.replicate m x).dropLast)
      = List.replicate (m + 1) 1
    rw [hdrop, ← hrep, List.zipWith_replicate']
    have hxx : clip01 (1 - |x - x| / 2) = 1 := by
      rw [sub_self, abs_zero]; norm_num [clip01]
    rw [hxx]

/-- **C3.** For every nonempty vector of predicted values,
`_calculate_confidence` returns a same-length vector with
confidence[0] = 1 and confidence[i] = clip(1 − |pred[i] − pred[i−1]|/2, 0, 1)
for i > 0; every entry lies in [0, 1], and identical consecutive
predictions yield a vector of all 1s. -/
theorem calculate_confidence_spec (ps : List ℚ) (hne : ps ≠ []) :
    (calculate_confidence ps).length = ps.length
    ∧ (calculate_confidence ps)[0]? = some 1
    ∧ (∀ i, 0 < i → i < ps.length → ∀ a b, ps[i]? = some a → ps[i - 1]? = some b →
        (calculate_confidence ps)[i]? = some (clip01 (1 - |a - b| / 2)))
    ∧ (∀ c ∈ calculate_confidence ps, 0 ≤ c ∧ c ≤ 1)
    ∧ (∀ n x, ps = List.replicate n x → calculate_confidence ps = List.replicate n 1) := by
  obtain ⟨p, rest, rfl⟩ := List.exists_cons_of_ne_nil hne
  refine ⟨calculate_confidence_length _, ?_, ?_, ?_, ?_⟩
  · show (List.zipWith (fun cur prev => clip01 (1 - |cur - prev| / 2))
        (p :: rest) (p :: (p :: rest).dropLast))[0]? = some 1
    rw [List.getElem?_zipWith]
    simp only [List.getElem?_cons_zero]
    norm_num [clip01]
  · intro i hi0 hilen a b ha hb
    obtain ⟨k, rfl⟩ : ∃ k, i = k + 1 := ⟨i - 1, by omega⟩
    have hk : k < (p :: rest).length - 1 := by
      simp only [List.length_cons] at hilen ⊢; omega
    have h1 : (p :: rest)[k + 1]? = some a := ha
    have h2 : (p :: (p :: rest).dropLast)[k + 1]? = some b := by
      rw [List.getElem?_cons_succ, List.dropLast_eq_take,
        List.getElem?_take_of_lt hk]
      simpa using hb
    show (List.zipWith (fun cur prev => clip01 (1 - |cur - prev| / 2))
        (p :: rest) (p :: (p :: rest).dropLast))[k + 1]?
      = some (clip01 (1 - |a - b| / 2))
    rw [List.getElem?_zipWith, h1, h2]
  · intro c hc
    obtain ⟨a, b, rfl⟩ := exists_of_mem_zipWith hc
    exact ⟨clip01_nonneg _, clip01_le_one _⟩
  · intro n x h
    rw [h]
    exact calculate_confidence_replicate n x

theorem calculate_confidence_spec_witness :
    (calculate_confidence [(2 : ℚ), 2, 2]).length = 3
    ∧ (calculate_confidence [(2 : ℚ), 2, 2])[0]? = some 1
    ∧ calculate_confidence [(2 : ℚ), 2, 2] = List.replicate 3 1 :=
  ⟨by simpa using (calculate_confidence_spec [(2 : ℚ), 2, 2] (by decide)).1,
   (calculate_confidence_spec [(2 : ℚ), 2, 2] (by decide)).2.1,
   (calculate_confidence_spec [(2 : ℚ), 2, 2] (by decide)).2.2.2.2 3 2 rfl⟩

/-! ## Min-max scaler laws -/

theorem foldl_min_le_init (xs : List ℚ) : ∀ a : ℚ, xs.foldl min a ≤ a := by
  induction xs with
  | nil => intro a; simp
  | cons x t ih =>
    intro a
    exact le_trans (ih (min a x)) (min_le_left a x)

theorem foldl_min_le_mem (xs : List ℚ) :
    ∀ (a x : ℚ), x ∈ xs → xs.foldl min a ≤ x := by
  induction xs with
  | nil => intro a x hx; simp at hx
  | cons y t ih =>
    intro a x hx
    rcases List.mem_cons.mp hx with h | h
    · subst h
      exact le_trans (foldl_min_le_init t (min a x)) (min_le_right a x)
    · exact ih (min a y) x h

theorem le_foldl_max_init (xs : List ℚ) : ∀ a : ℚ, a ≤ xs.foldl max a := by
  induction xs with
  | nil => intro a; simp
  | cons x t ih =>
    intro a
    exact le_trans (le_max_left a x) (ih (max a x))

theorem le_foldl_max_mem (xs : List ℚ) :
    ∀ (a x : ℚ), x ∈ xs → x ≤ xs.foldl max a := by
  induction xs with
  | nil => intro a x hx; simp at hx
  | cons y t ih =>
    intro a x hx
    rcases List.mem_cons.mp hx with h | h
    · subst h
      exact le_trans (le_max_right a x) (le_foldl_max_init t (max a x))
    · exact ih (max a y) x h

theorem listMin_le_mem {xs : List ℚ} {x : ℚ} (hx : x ∈ xs) : listMin xs ≤ x := by
  cases xs with
  | nil => simp at hx
  | cons y t =>
    rcases List.mem_cons.mp hx with h | h
    · subst h; exact foldl_min_le_init t x
    · exact foldl_min_le_mem t y x h

theorem le_listMax_mem {xs : List ℚ} {x : ℚ} (hx : x ∈ xs) : x ≤ listMax xs := by
  cases xs with
  | nil => simp at hx
  | cons y t =>
    rcases List.mem_cons.mp hx with h | h
    · subst h; exact le_foldl_max_init t x
    · exact le_foldl_max_mem t y x h

theorem data_range_ne_zero (b : Bounds) : data_range b ≠ 0 := by
  unfold data_range
  split
  · exact one_ne_zero
  · assumption

theorem foldl_min_replicate (c : ℚ) :
    ∀ (m : ℕ) (a : ℚ),
      (List.replicate m c).foldl min a = if m = 0 then a else min a c := by
  intro m
  induction m with
  | zero => intro a; rfl
  | succ k ih =>
    intro a
    rw [List.replicate_succ, List.foldl_cons, ih (min a c)]
    cases k with
    | zero => simp
    | succ j => simp [min_assoc]

theorem foldl_max_replicate (c : ℚ) :
    ∀ (m : ℕ) (a : ℚ),
      (List.replicate m c).foldl max a = if m = 0 then a else max a c := by
  intro m
  induction m with
  | zero => intro a; rfl
  | succ k ih =>
    intro a
    rw [List.replicate_succ, List.foldl_cons, ih (max a c)]
    cases k with
    | zero => simp
    | succ j => simp [max_assoc]

theorem fitColumn_replicate (n : ℕ) (c : ℚ) (hn : 1 ≤ n) :
    fitColumn (List.replicate n c) = ⟨c, c⟩ := by
  obtain ⟨m, rfl⟩ : ∃ m, n = m + 1 := ⟨n - 1, by omega⟩
  unfold fitColumn listMin listMax
  rw [List.replicate_succ]
  simp only [foldl_min_replicate, foldl_max_replicate]
  cases m with
  | zero => simp
  | succ j => simp

/-- **C7.** The min-max scaler fitted on a feature column sends every
fitted value into [0, 1]; `inverse_transform ∘ transform` is the exact
identity (over ℚ; "within floating tolerance" in the float reference),
including on constant columns thanks to sklearn's deterministic
zero-range policy; and a constant column transforms to the fixed value 0
with no division by zero. -/
theorem minmax_scaler_spec (xs : List ℚ) :
    (∀ x ∈ xs, 0 ≤ transformVal (fitColumn xs) x ∧ transformVal (fitColumn xs) x ≤ 1)
    ∧ (∀ x : ℚ, inverseVal (fitColumn xs) (transformVal (fitColumn xs) x) = x)
    ∧ (∀ (n : ℕ) (c : ℚ), 1 ≤ n →
        transformVal (fitColumn (List.replicate n c)) c = 0) := by
  refine ⟨?_, ?_, ?_⟩
  · intro x hx
    have hlo : listMin xs ≤ x := listMin_le_mem hx
    have hhi : x ≤ listMax xs := le_listMax_mem hx
    unfold transformVal fitColumn data_range
    by_cases h0 : listMax xs - listMin xs = 0
    · simp only [h0, if_pos]
      constructor
      · apply div_nonneg _ zero_le_one
        linarith
      · rw [div_one]
        linarith
    · simp only [h0, if_neg, ite_false]
      have hpos : 0 < listMax xs - listMin xs := by
        rcases lt_or_eq_of_le (by linarith : (0 : ℚ) ≤ listMax xs - listMin xs) with h | h
        · exact h
        · exact absurd h.symm h0
      constructor
      · apply div_nonneg _ (le_of_lt hpos)
        linarith
      · rw [div_le_one hpos]
        linarith
  · intro x
    unfold transformVal inverseVal
    rw [div_mul_cancel₀ _ (data_range_ne_zero (fitColumn xs)), sub_add_cancel]
  · intro n c hn
    rw [fitColumn_replicate n c hn]
    unfold transformVal
    simp

theorem minmax_scaler_spec_witness :
    (0 ≤ transformVal (fitColumn [(1 : ℚ), 3]) 3
      ∧ transformVal (fitColumn [(1 : ℚ), 3]) 3 ≤ 1)
    ∧ inverseVal (fitColumn [(1 : ℚ), 3]) (transformVal (fitColumn [(1 : ℚ), 3]) 7) = 7
    ∧ transformVal (fitColumn (List.replicate 2 (5 : ℚ))) 5 = 0 :=
  ⟨(minmax_scaler_spec [(1 : ℚ), 3]).1 3 (by decide),
   (minmax_scaler_spec [(1 : ℚ), 3]).2.1 7,
   (minmax_scaler_spec (List.replicate 2 (5 : ℚ))).2.2 2 5 (by decide)⟩

/-! ## Scaler-state discipline of the predictor -/

theorem train_state_of_fitted (st : PredictorState) (h : st.fitted = true)
    (rows : List (ℚ × ℚ)) :
    (train st rows).1.bounds = st.bounds ∧ (train st rows).1.fitted = true := by
  unfold train
  by_cases he : rows.isEmpty = true
  · simp [he, h]
  · simp only [he, Bool.false_eq_true, ite_false, prepare_sequences, h, ite_true]
    split <;> exact ⟨rfl, rfl⟩

theorem opStep_preserves (st : PredictorState) (h : st.fitted = true) (op : PredOp) :
    (opStep st op).bounds = st.bounds ∧ (opStep st op).fitted = true := by
  cases op with
  | predictOp d => exact ⟨rfl, h⟩
  | trainOp rows => exact train_state_of_fitted st h rows

theorem foldl_opStep_preserves (ops : List PredOp) :
    ∀ st : PredictorState, st.fitted = true →
      (ops.foldl opStep st).bounds = st.bounds
      ∧ (ops.foldl opStep st).fitted = true := by
  induction ops with
  | nil => intro st h; exact ⟨rfl, h⟩
  | cons op t ih =>
    intro st h
    have h1 := opStep_preserves st h op
    have h2 := ih (opStep st op) h1.2
    exact ⟨h2.1.trans h1.1, h2.2⟩

theorem train_initState_state (rows : List (ℚ × ℚ)) (hne : rows.isEmpty = false) :
    (train initState rows).1 = ⟨true, true, fitRows rows⟩ := by
  unfold train prepare_sequences initState
  simp only [hne, Bool.false_eq_true, ite_false]
  split <;> rfl

/-- **C6.** The scaler is fitted exactly once, on the first training
call: that call stores the per-feature min/max of its data and sets the
fitted flag; every subsequent operation (further `train` calls, which
then take the `transform` branch, and `predict_future` calls, which
never write state) leaves the stored bounds unchanged, and no operation
ever refits them. -/
theorem scaler_fitted_once_frozen (rows : List (ℚ × ℚ)) (hne : rows ≠ [])
    (ops : List PredOp) :
    (train initState rows).1.fitted = true
    ∧ (train initState rows).1.bounds = fitRows rows
    ∧ (ops.foldl opStep (train initState rows).1).bounds = fitRows rows
    ∧ (ops.foldl opStep (train initState rows).1).fitted = true := by
  have hemp : rows.isEmpty = false := by
    rw [← Bool.not_eq_true, List.isEmpty_iff]
    exact hne
  rw [train_initState_state rows hemp]
  have h := foldl_opStep_preserves ops ⟨true, true, fitRows rows⟩ rfl
  exact ⟨rfl, rfl, h.1, h.2⟩

theorem scaler_fitted_once_frozen_witness :
    (train initState [((1 : ℚ), (2 : ℚ)), (3, 4)]).1.fitted = true
    ∧ (train initState [((1 : ℚ), (2 : ℚ)), (3, 4)]).1.bounds
        = fitRows [((1 : ℚ), (2 : ℚ)), (3, 4)]
    ∧ ([PredOp.predictOp [], PredOp.trainOp [((5 : ℚ), (6 : ℚ))]].foldl opStep
        (train initState [((1 : ℚ), (2 : ℚ)), (3, 4)]).1).bounds
        = fitRows [((1 : ℚ), (2 : ℚ)), (3, 4)] := by
  have h := scaler_fitted_once_frozen [((1 : ℚ), (2 : ℚ)), (3, 4)] (by decide)
    [PredOp.predictOp [], PredOp.trainOp [((5 : ℚ), (6 : ℚ))]]
  exact ⟨h.1, h.2.1, h.2.2.1⟩

/-- **C4 (code bug).** On a fresh instance `predict_future` is indeed
rejected ("Model must be trained before making predictions"), but a
`train` call that fails during model fitting (here: 30 observations,
fewer than L+H+1, so the fit step receives empty arrays and raises) has
already set `self._is_fitted` (line 39) and `self.model` (line 62), so a
subsequent `predict_future` on 24+ observations passes both guards and
returns a forecast from the never-fitted model, contradicting the
claimed NotTrainedError discipline. -/
theorem predict_after_failed_train :
    predict_future initState data30 netZero
        = Except.error "Model must be trained before making predictions"
    ∧ (train initState rows30).2 = Except.error "model fit: empty training data"
    ∧ (predict_future (train initState rows30).1 data30 netZero).isOk = true := by
  refine ⟨rfl, rfl, by decide⟩

/-! ## Forecast emission -/

theorem zip3_cons {α β γ : Type} (x : α) (y : β) (z : γ)
    (t : List α) (u : List β) (v : List γ) :
    zip3 (x :: t) (y :: u) (z :: v) = (x, y, z) :: zip3 t u v := rfl

theorem zip3_length {α β γ : Type} (a : List α) (b : List β) (c : List γ) :
    (zip3 a b c).length = min a.length (min b.length c.length) := by
  simp [zip3, List.length_zipWith, List.length_zip]

theorem zip3_map_fst {α β γ : Type} :
    ∀ (a : List α) (b : List β) (c : List γ),
      a.length ≤ b.length → a.length ≤ c.length →
      (zip3 a b c).map (fun r => r.1) = a := by
  intro a
  induction a with
  | nil => intro b c _ _; simp [zip3]
  | cons x t ih =>
    intro b c hb hc
    cases b with
    | nil => simp at hb
    | cons y u =>
      cases c with
      | nil => simp at hc
      | cons z v =>
        rw [zip3_cons, List.map_cons,
          ih u v (by simpa using hb) (by simpa using hc)]

theorem zip3_map_snd {α β γ : Type} :
    ∀ (b : List β) (a : List α) (c : List γ),
      b.length ≤ a.length → b.length ≤ c.length →
      (zip3 a b c).map (fun r => r.2.1) = b := by
  intro b
  induction b with
  | nil =>
    intro a c _ _
    cases a <;> simp [zip3]
  | cons y u ih =>
    intro a c ha hc
    cases a with
    | nil => simp at ha
    | cons x t =>
      cases c with
      | nil => simp at hc
      | cons z v =>
        rw [zip3_cons, List.map_cons,
          ih t v (by simpa using ha) (by simpa using hc)]

theorem zip3_map_thd {α β γ : Type} :
    ∀ (c : List γ) (a : List α) (b : List β),
      c.length ≤ a.length → c.length ≤ b.length →
      (zip3 a b c).map (fun r => r.2.2) = c := by
  intro c
  induction c with
  | nil =>
    intro a b _ _
    cases a with
    | nil => simp [zip3]
    | cons x t => cases b <;> simp [zip3]
  | cons z v ih =>
    intro a b ha hb
    cases a with
    | nil => simp at ha
    | cons x t =>
      cases b with
      | nil => simp at hb
      | cons y u =>
        rw [zip3_cons, List.map_cons,
          ih t u (by simpa using ha) (by simpa using hb)]

/-- **C5.** In a trained state, `predict_future` on at least L = 24
observations emits exactly H = 12 forecast records; their timestamps are
the 12 consecutive hours starting one hour after the last observed
timestamp (hence strictly increasing and hourly spaced); their
intensities are the inverse-scaled (intensity bounds only — the other
feature column is held at zero and then discarded) outputs of the model
applied to the scaled last-24 window; and their confidences are
`_calculate_confidence` of those intensities. -/
theorem predict_future_spec (st : PredictorState) (data : List (ℤ × ℚ × ℚ))
    (net : List (ℚ × ℚ) → List ℚ)
    (hb : st.modelBuilt = true) (hf : st.fitted = true)
    (h24 : 24 ≤ data.length) (hne : data ≠ [])
    (hnet : ∀ s, (net s).length = 12) :
    ∃ recs : List (ℤ × ℚ × ℚ),
      predict_future st data net = Except.ok recs
      ∧ recs.length = 12
      ∧ recs.map (fun r => r.1)
          = (List.range 12).map (fun (k : ℕ) => (data.getLast hne).1 + (k : ℤ) + 1)
      ∧ (recs.map (fun r => r.1)).Pairwise (· < ·)
      ∧ recs.map (fun r => r.2.1)
          = (net ((data.drop (data.length - 24)).map
              (fun o => transformRow st.bounds (o.2.1, o.2.2)))).map
              (inverseVal st.bounds.1)
      ∧ recs.map (fun r => r.2.2)
          = calculate_confidence (recs.map (fun r => r.2.1)) := by
  have hlast : data.getLast? = some (data.getLast hne) :=
    List.getLast?_eq_getLast data hne
  set scaled : List (ℚ × ℚ) :=
    (data.drop (data.length - 24)).map
      (fun o => transformRow st.bounds (o.2.1, o.2.2)) with hscaled
  have hscaled_len : scaled.length = 24 := by
    rw [hscaled, List.length_map, List.length_drop]
    omega
  set rescaled : List ℚ := (net scaled).map (inverseVal st.bounds.1) with hrescaled
  have hres_len : rescaled.length = 12 := by
    rw [hrescaled, List.length_map, hnet]
  set times : List ℤ :=
    (List.range 12).map (fun (k : ℕ) => (data.getLast hne).1 + (k : ℤ) + 1) with htimes
  have htimes_len : times.length = 12 := by
    rw [htimes, List.length_map, List.length_range]
  have hconf_len : (calculate_confidence rescaled).length = 12 := by
    rw [calculate_confidence_length, hres_len]
  have hmain : predict_future st data net
      = Except.ok (zip3 times rescaled (calculate_confidence rescaled)) := by
    unfold predict_future
    rw [hb, hf]
    simp only [Bool.true_eq_false, ite_false, hlast]
    rw [show sequence_length = 24 from rfl, ← hscaled]
    simp only [hscaled_len, ne_eq, not_true_eq_false, ite_false,
      reduceCtorEq, if_neg]
    have hcomp : (((net scaled).map (fun v => ((v, 0) : ℚ × ℚ))).map
          (fun r => (inverseVal st.bounds.1 r.1, inverseVal st.bounds.2 r.2))).map
          Prod.fst = rescaled := by
      rw [hrescaled]
      simp [List.map_map, Function.comp]
    rw [hcomp]
    have hnotlt : ¬ (forecast_horizon < rescaled.length) := by
      rw [hres_len]; decide
    rw [if_neg hnotlt]
    have htake : ((List.range forecast_horizon).map
        (fun (i : ℕ) => (data.getLast hne).1 + (i : ℤ) + 1)).take rescaled.length
        = times := by
      rw [show forecast_horizon = 12 from rfl, ← htimes]
      exact List.take_of_length_le (by rw [htimes_len, hres_len])
    rw [htake]
  refine ⟨zip3 times rescaled (calculate_confidence rescaled), hmain, ?_, ?_, ?_, ?_, ?_⟩
  · rw [zip3_length, htimes_len, hres_len, hconf_len]
    simp
  · exact zip3_map_fst times rescaled (calculate_confidence rescaled)
      (by rw [htimes_len, hres_len]) (by rw [htimes_len, hconf_len])
  · rw [zip3_map_fst times rescaled (calculate_confidence rescaled)
      (by rw [htimes_len, hres_len]) (by rw [htimes_len, hconf_len])]
    rw [htimes, List.pairwise_map]
    exact (List.pairwise_lt_range 12).imp (fun hab => by omega)
  · exact zip3_map_snd rescaled times (calculate_confidence rescaled)
      (by rw [htimes_len, hres_len]) (by rw [hres_len, hconf_len])
  · rw [zip3_map_thd (calculate_confidence rescaled) times rescaled
      (by rw [htimes_len, hconf_len]) (by rw [hres_len, hconf_len]),
      zip3_map_snd rescaled times (calculate_confidence rescaled)
      (by rw [htimes_len, hres_len]) (by rw [hres_len, hconf_len])]

theorem predict_future_spec_witness :
    ∃ recs : List (ℤ × ℚ × ℚ),
      predict_future stW data24 netZero = Except.ok recs
      ∧ recs.length = 12
      ∧ recs.map (fun r => r.1)
          = (List.range 12).map (fun (k : ℕ) => (data24.getLast (by decide)).1 + (k : ℤ) + 1)
      ∧ (recs.map (fun r => r.1)).Pairwise (· < ·)
      ∧ recs.map (fun r => r.2.1)
          = (netZero ((data24.drop (data24.length - 24)).map
              (fun o => transformRow stW.bounds (o.2.1, o.2.2)))).map
              (inverseVal stW.bounds.1)
      ∧ recs.map (fun r => r.2.2)
          = calculate_confidence (recs.map (fun r => r.2.1)) :=
  predict_future_spec stW data24 netZero rfl rfl (by decide) (by decide)
    (fun s => rfl)

/-! ## Train/validation split -/

/-- **C8, counterexample.** With N = 6 training pairs the code's
`int(len(X) * 0.8)` keeps the first 4 pairs for training, not the
⌈0.8·6⌉ = 5 pairs of the claim read as a ceiling. -/
theorem train_val_split_at_six :
    (trainValSplit sixList).1.length = 4
    ∧ (⌈(4 : ℚ) * 6 / 5⌉ : ℤ) = 5
    ∧ ((trainValSplit sixList).1.length : ℤ) ≠ ⌈(4 : ℚ) * 6 / 5⌉ := by
  have h1 : (trainValSplit sixList).1.length = 4 := by decide
  have h2 : (⌈(4 : ℚ) * 6 / 5⌉ : ℤ) = 5 := by
    rw [Int.ceil_eq_iff]
    norm_num
  refine ⟨h1, h2, ?_⟩
  rw [h1, h2]
  decide

/-- **C8, amended.** The fit uses the first ⌊0.8·N⌋ pairs, in original
temporal order and not shuffled (train ++ validation is the original
pair list, element-for-element), the remaining pairs as validation data
— so validation always follows training chronologically — and the
compiled loss metric is mean squared error. -/
theorem train_val_split_spec {α : Type} (X : List α) :
    (trainValSplit X).1.length = X.length * 4 / 5
    ∧ (trainValSplit X).1 ++ (trainValSplit X).2 = X
    ∧ (∀ i, i < (trainValSplit X).1.length → (trainValSplit X).1[i]? = X[i]?)
    ∧ (∀ j : ℕ, (trainValSplit X).2[j]? = X[X.length * 4 / 5 + j]?)
    ∧ loss_metric = "mse" := by
  have hle : X.length * 4 / 5 ≤ X.length :=
    calc X.length * 4 / 5 ≤ X.length * 5 / 5 :=
          Nat.div_le_div_right (by omega)
      _ = X.length := Nat.mul_div_cancel X.length (by norm_num)
  refine ⟨?_, List.take_append_drop _ X, ?_, fun j => List.getElem?_drop X _ j, rfl⟩
  · rw [trainValSplit, List.length_take, min_eq_left hle]
  · intro i hi
    rw [trainValSplit, List.length_take, min_eq_left hle] at hi
    exact List.getElem?_take_of_lt hi

theorem train_val_split_spec_witness :
    (trainValSplit tenList).1 ++ (trainValSplit tenList).2 = tenList
    ∧ (trainValSplit tenList).1[0]? = tenList[0]?
    ∧ (trainValSplit tenList).2[0]? = tenList[tenList.length * 4 / 5 + 0]? :=
  ⟨(train_val_split_spec tenList).2.1,
   (train_val_split_spec tenList).2.2.1 0 (by decide),
   (train_val_split_spec tenList).2.2.2.1 0⟩

/-! ## Insight generation -/

theorem mem_ite_singleton {c : Prop} [Decidable c] {s t : String} :
    (s ∈ if c then [t] else []) ↔ (c ∧ s = t) := by
  split
  · simp [*]
  · simp [*]

theorem mem_generate_insights (s : String) (xs : List ℚ) (kp : Option (List ℚ)) :
    s ∈ generate_insights xs kp ↔
      ((1 : ℚ) / 10 < |listMean (diffs (tail24 xs))|
          ∧ s = trendInsight
              (if 0 < listMean (diffs (tail24 xs)) then "increasing" else "decreasing"))
      ∨ (std_gate xs ∧ s = variabilityInsight)
      ∨ (∃ ys, kp = some ys ∧ corr_gate xs ys
          ∧ s = correlationInsight
              (if 0 < covSum xs ys then "positive" else "negative")) := by
  cases kp with
  | none =>
    simp only [generate_insights, List.mem_append, mem_ite_singleton]
    simp
  | some ys =>
    simp only [generate_insights, List.mem_append, mem_ite_singleton]
    simp only [Option.some.injEq]
    constructor
    · rintro ((⟨h1, h2⟩ | ⟨h1, h2⟩) | ⟨h1, h2⟩)
      · exact Or.inl ⟨h1, h2⟩
      · exact Or.inr (Or.inl ⟨h1, h2⟩)
      · exact Or.inr (Or.inr ⟨ys, rfl, h1, h2⟩)
    · rintro (⟨h1, h2⟩ | ⟨h1, h2⟩ | ⟨ys2, hys, h1, h2⟩)
      · exact Or.inl (Or.inl ⟨h1, h2⟩)
      · exact Or.inl (Or.inr ⟨h1, h2⟩)
      · cases hys
        exact Or.inr ⟨h1, h2⟩

theorem zipWith_sub_replicate (c : ℚ) :
    ∀ j k : ℕ,
      List.zipWith (fun a b => a - b) (List.replicate j c) (List.replicate k c)
        = List.replicate (min j k) 0 := by
  intro j
  induction j with
  | zero => intro k; simp
  | succ i ih =>
    intro k
    cases k with
    | zero => simp
    | succ l =>
      rw [List.replicate_succ, List.replicate_succ (n := l), List.zipWith_cons_cons,
        ih l, sub_self, Nat.succ_min_succ, List.replicate_succ]

theorem listMean_diffs_replicate (n : ℕ) (c : ℚ) :
    listMean (diffs (tail24 (List.replicate n c))) = 0 := by
  rw [tail24, List.length_replicate, List.drop_replicate]
  rw [diffs, List.tail_replicate, zipWith_sub_replicate]
  rw [listMean, List.sum_replicate]
  simp

/-- **C9, counterexample.** Two concrete refutations.  First, a
monotonically (strictly) increasing intensity series of 24 points whose
mean step is 1/100 produces no insight at all — in particular no string
containing "increasing" — because the trend gate requires
|mean diff| > 0.1.  Second, a 30-point series whose trailing 24
observations are constant (so every statistic of the trailing 24 is
flat: its sample-variance gate `std_gate` is false) still produces the
variability insight, because the code computes that statistic over the
whole series (lines 146-147) — refuting "every insight is derived from
statistics over the trailing 24 observations". -/
theorem insights_slow_monotone :
    (List.Chain' (· < ·) xs24 ∧ 24 ≤ xs24.length
      ∧ generate_insights xs24 none = [])
    ∧ (generate_insights mix30 none = [variabilityInsight]
      ∧ ¬ std_gate (tail24 mix30)) := by
  have hm : listMean (diffs (tail24 xs24)) = 1 / 100 := by
    norm_num [xs24, tail24, diffs, listMean]
  have hs : ¬ std_gate xs24 := by
    norm_num [std_gate, xs24, listMean, sampleVar, Sxx]
  refine ⟨⟨by norm_num [xs24, List.chain'_cons], by decide, ?_⟩, ?_, ?_⟩
  · rw [generate_insights]
    norm_num [hm, hs]
    rw [show |(1 : ℚ) / 100| = 1 / 100 from abs_of_pos (by norm_num)]
    norm_num
  · have hm30 : listMean (diffs (tail24 mix30)) = 0 := by
      norm_num [mix30, tail24, diffs, listMean]
    have hstd : std_gate mix30 := by
      norm_num [std_gate, mix30, listMean, sampleVar, Sxx]
    rw [generate_insights]
    norm_num [hm30, hstd]
  · norm_num [std_gate, mix30, tail24, listMean, sampleVar, Sxx]

/-- **C9, amended.** `generate_insights` emits: a trend insight — string
"Solar activity shows a increasing/decreasing trend over the last 24
hours." — exactly when the mean first difference of the trailing 24
observations exceeds 0.1 in absolute value (direction by its sign); a
variability insight exactly when the full-series sample standard
deviation exceeds 0.5 × the full-series mean; a correlation insight
exactly when the full-series |Pearson correlation| between intensity
and kp_index exceeds 0.7 and the column is present — the "positive"
insight exactly when additionally the covariance is positive, the
"negative" insight exactly when it is negative, and neither when the
kp_index column is absent; and a flat (constant) series yields no
trend insight. -/
theorem generate_insights_spec (xs : List ℚ) (kp : Option (List ℚ)) :
    (trendInsight "increasing" ∈ generate_insights xs kp
      ↔ (1 : ℚ) / 10 < listMean (diffs (tail24 xs)))
    ∧ (trendInsight "decreasing" ∈ generate_insights xs kp
      ↔ listMean (diffs (tail24 xs)) < -(1 / 10))
    ∧ (variabilityInsight ∈ generate_insights xs kp ↔ std_gate xs)
    ∧ (∀ ys, kp = some ys →
        (correlationInsight "positive" ∈ generate_insights xs kp
          ↔ (corr_gate xs ys ∧ 0 < covSum xs ys)))
    ∧ (∀ ys, kp = some ys →
        (correlationInsight "negative" ∈ generate_insights xs kp
          ↔ (corr_gate xs ys ∧ covSum xs ys < 0)))
    ∧ (kp = none →
        correlationInsight "positive" ∉ generate_insights xs kp
        ∧ correlationInsight "negative" ∉ generate_insights xs kp)
    ∧ (∀ (n : ℕ) (c : ℚ), xs = List.replicate n c →
        trendInsight "increasing" ∉ generate_insights xs kp
        ∧ trendInsight "decreasing" ∉ generate_insights xs kp) := by
  have hinc : trendInsight "increasing" ∈ generate_insights xs kp
      ↔ (1 : ℚ) / 10 < listMean (diffs (tail24 xs)) := by
    rw [mem_generate_insights]
    constructor
    · rintro (⟨hg, heq⟩ | ⟨_, heq⟩ | ⟨ys, _, _, heq⟩)
      · by_cases hm0 : 0 < listMean (diffs (tail24 xs))
        · rwa [abs_of_pos hm0] at hg
        · rw [if_neg hm0] at heq
          exact absurd heq (by decide)
      · exact absurd heq (by decide)
      · by_cases hc : 0 < covSum xs ys
        · rw [if_pos hc] at heq; exact absurd heq (by decide)
        · rw [if_neg hc] at heq; exact absurd heq (by decide)
    · intro h
      have hm0 : 0 < listMean (diffs (tail24 xs)) := lt_trans (by norm_num) h
      exact Or.inl ⟨by rwa [abs_of_pos hm0], by rw [if_pos hm0]⟩
  have hdec : trendInsight "decreasing" ∈ generate_insights xs kp
      ↔ listMean (diffs (tail24 xs)) < -(1 / 10) := by
    rw [mem_generate_insights]
    constructor
    · rintro (⟨hg, heq⟩ | ⟨_, heq⟩ | ⟨ys, _, _, heq⟩)
      · by_cases hm0 : 0 < listMean (diffs (tail24 xs))
        · rw [if_pos hm0] at heq
          exact absurd heq (by decide)
        · rw [abs_of_nonpos (le_of_not_lt hm0)] at hg
          linarith
      · exact absurd heq (by decide)
      · by_cases hc : 0 < covSum xs ys
        · rw [if_pos hc] at heq; exact absurd heq (by decide)
        · rw [if_neg hc] at heq; exact absurd heq (by decide)
    · intro h
      have hm0 : ¬ 0 < listMean (diffs (tail24 xs)) := by linarith
      refine Or.inl ⟨?_, by rw [if_neg hm0]⟩
      rw [abs_of_nonpos (le_of_not_lt hm0)]
      linarith
  have hvar : variabilityInsight ∈ generate_insights xs kp ↔ std_gate xs := by
    rw [mem_generate_insights]
    constructor
    · rintro (⟨_, heq⟩ | ⟨hg, _⟩ | ⟨ys, _, _, heq⟩)
      · by_cases hm0 : 0 < listMean (diffs (tail24 xs))
        · rw [if_pos hm0] at heq; exact absurd heq (by decide)
        · rw [if_neg hm0] at heq; exact absurd heq (by decide)
      · exact hg
      · by_cases hc : 0 < covSum xs ys
        · rw [if_pos hc] at heq; exact absurd heq (by decide)
        · rw [if_neg hc] at heq; exact absurd heq (by decide)
    · intro hg
      exact Or.inr (Or.inl ⟨hg, rfl⟩)
  have hcorr : ∀ ys, kp = some ys →
      (correlationInsight "positive" ∈ generate_insights xs kp
        ↔ (corr_gate xs ys ∧ 0 < covSum xs ys)) := by
    intro ys hkp
    subst hkp
    rw [mem_generate_insights]
    constructor
    · rintro (⟨_, heq⟩ | ⟨_, heq⟩ | ⟨ys2, hys, hg, heq⟩)
      · by_cases hm0 : 0 < listMean (diffs (tail24 xs))
        · rw [if_pos hm0] at heq; exact absurd heq (by decide)
        · rw [if_neg hm0] at heq; exact absurd heq (by decide)
      · exact absurd heq (by decide)
      · injection hys with h
        subst h
        by_cases hc : 0 < covSum xs ys
        · exact ⟨hg, hc⟩
        · rw [if_neg hc] at heq
          exact absurd heq (by decide)
    · rintro ⟨hg, hc⟩
      exact Or.inr (Or.inr ⟨ys, rfl, hg, by rw [if_pos hc]⟩)
  have hneg : ∀ ys, kp = some ys →
      (correlationInsight "negative" ∈ generate_insights xs kp
        ↔ (corr_gate xs ys ∧ covSum xs ys < 0)) := by
    intro ys hkp
    subst hkp
    rw [mem_generate_insights]
    constructor
    · rintro (⟨_, heq⟩ | ⟨_, heq⟩ | ⟨ys2, hys, hg, heq⟩)
      · by_cases hm0 : 0 < listMean (diffs (tail24 xs))
        · rw [if_pos hm0] at heq; exact absurd heq (by decide)
        · rw [if_neg hm0] at heq; exact absurd heq (by decide)
      · exact absurd heq (by decide)
      · injection hys with h
        subst h
        by_cases hc : 0 < covSum xs ys
        · rw [if_pos hc] at heq
          exact absurd heq (by decide)
        · have hnz : covSum xs ys ≠ 0 := by
            intro h0
            have h4 := hg.2.2.2
            rw [h0] at h4
            have hpos : 0 < Sxx xs * Sxx ys := mul_pos hg.2.1 hg.2.2.1
            nlinarith
          exact ⟨hg, lt_of_le_of_ne (le_of_not_lt hc) hnz⟩
    · rintro ⟨hg, hc⟩
      have hc0 : ¬ 0 < covSum xs ys := by linarith
      exact Or.inr (Or.inr ⟨ys, rfl, hg, by rw [if_neg hc0]⟩)
  have habs : kp = none →
      correlationInsight "positive" ∉ generate_insights xs kp
      ∧ correlationInsight "negative" ∉ generate_insights xs kp := by
    intro hkp
    subst hkp
    constructor
    · rw [mem_generate_insights]
      rintro (⟨_, heq⟩ | ⟨_, heq⟩ | ⟨ys, hys, _, _⟩)
      · by_cases hm0 : 0 < listMean (diffs (tail24 xs))
        · rw [if_pos hm0] at heq; exact absurd heq (by decide)
        · rw [if_neg hm0] at heq; exact absurd heq (by decide)
      · exact absurd heq (by decide)
      · exact Option.noConfusion hys
    · rw [mem_generate_insights]
      rintro (⟨_, heq⟩ | ⟨_, heq⟩ | ⟨ys, hys, _, _⟩)
      · by_cases hm0 : 0 < listMean (diffs (tail24 xs))
        · rw [if_pos hm0] at heq; exact absurd heq (by decide)
        · rw [if_neg hm0] at heq; exact absurd heq (by decide)
      · exact absurd heq (by decide)
      · exact Option.noConfusion hys
  refine ⟨hinc, hdec, hvar, hcorr, hneg, habs, ?_⟩
  intro n c h
  have hm0 : listMean (diffs (tail24 xs)) = 0 := by
    rw [h]; exact listMean_diffs_replicate n c
  constructor
  · rw [hinc, hm0]; norm_num
  · rw [hdec, hm0]; norm_num

theorem generate_insights_spec_witness :
    trendInsight "increasing" ∈ generate_insights ramp24 none
    ∧ trendInsight "increasing" ∉ generate_insights (List.replicate 30 (5 : ℚ)) none
    ∧ correlationInsight "negative" ∈ generate_insights ramp24 (some rev24)
    ∧ correlationInsight "positive" ∉ generate_insights xs24 none :=
  ⟨(generate_insights_spec ramp24 none).1.mpr
      (by norm_num [ramp24, tail24, diffs, listMean]),
   ((generate_insights_spec (List.replicate 30 (5 : ℚ)) none).2.2.2.2.2.2 30 5 rfl).1,
   ((generate_insights_spec ramp24 (some rev24)).2.2.2.2.1 rev24 rfl).mpr
      ⟨by norm_num [corr_gate, ramp24, rev24, Sxx, covSum, listMean],
       by norm_num [covSum, ramp24, rev24, listMean]⟩,
   ((generate_insights_spec xs24 none).2.2.2.2.2.1 rfl).1⟩

/-! ## Report assembly -/

/-- **C10.** Every error raised inside report generation surfaces to the
caller in the returned message (never silently swallowed); the single
exception is the detail-formatting step, whose failure is replaced by
the placeholder line "Error processing forecast details" while the rest
of the report (insights, recommendations) still renders; and an empty
forecast yields the distinct "No forecast data generated" signal — the
returned string is exactly that error message, never a report with a
peak-activity line. -/
theorem generate_report_spec :
    (∀ (e : String) (det : Except String (List String)),
        generate_report (Except.error e) det = "Error generating report: " ++ e)
    ∧ (∀ (insights : List String) (det : Except String (List String)),
        generate_report (Except.ok ([], insights)) det
          = "Error generating report: No forecast data generated")
    ∧ (∀ (forecast : List (ℤ × ℚ × ℚ)) (insights : List String) (msg : String),
        forecast ≠ [] →
          generate_report (Except.ok (forecast, insights)) (Except.error msg)
            = String.intercalate "\n" (report_lines insights (Except.error msg))
          ∧ "Error processing forecast details"
              ∈ report_lines insights (Except.error msg)
          ∧ (∀ s ∈ insights, ("• " ++ s) ∈ report_lines insights (Except.error msg))
          ∧ "Recommendations:" ∈ report_lines insights (Except.error msg)) := by
  refine ⟨fun e det => rfl, fun insights det => rfl, ?_⟩
  intro forecast insights msg hne
  have hemp : forecast.isEmpty = false := by
    rw [← Bool.not_eq_true, List.isEmpty_iff]
    exact hne
  refine ⟨by simp [generate_report, hemp], ?_, ?_, ?_⟩
  · simp [report_lines]
  · intro s hs
    have hmem : ("• " ++ s) ∈ insights.map (fun t => "• " ++ t) :=
      List.mem_map_of_mem (fun t => "• " ++ t) hs
    simp only [report_lines, List.mem_append]
    tauto
  · simp [report_lines, recommendationLines]

theorem generate_report_spec_witness :
    generate_report (Except.error "boom") (Except.ok [])
        = "Error generating report: boom"
    ∧ generate_report (Except.ok (([] : List (ℤ × ℚ × ℚ)), ["x"])) (Except.ok [])
        = "Error generating report: No forecast data generated"
    ∧ "Error processing forecast details" ∈ report_lines ["x"] (Except.error "fmt")
    ∧ ("• " ++ "x") ∈ report_lines ["x"] (Except.error "fmt") :=
  ⟨generate_report_spec.1 "boom" (Except.ok []),
   generate_report_spec.2.1 ["x"] (Except.ok []),
   (generate_report_spec.2.2 [((0 : ℤ), (0 : ℚ), (0 : ℚ))] ["x"] "fmt" (by decide)).2.1,
   (generate_report_spec.2.2 [((0 : ℤ), (0 : ℚ), (0 : ℚ))] ["x"] "fmt" (by decide)).2.2.1
     "x" (by decide)⟩

end SBTA
